import Mathlib

/-!
Shallow embedding of the client-side state-synchronization core of
`src/frontend/src/App.js` (the `App` component of the blog client),
together with theorems settling the specification claims about it.

Modelling conventions:
* JS strings are Lean `String`s; `String.data` is the character list.
* `toLowerCase()` is modelled ASCII-wise (`jsCharToLower`), which is the
  behaviour relevant to every claim (all literals involved are ASCII).
* JS numbers holding like/view counters are modelled as `Int` so that the
  source's `p.likes - 1` can actually go below zero, as JS numbers can.
* The asynchronous handlers are modelled as pure state transformers that
  take the outcome of the single network call they issue as an argument;
  the two halves of the optimistic like (the synchronous optimistic update
  and the failure rollback) are additionally exposed separately, because
  a fetch refresh can complete between them.
-/

/-- ASCII lower-casing of one character, as `String.prototype.toLowerCase`
acts on the ASCII range (all strings occurring in the claims are ASCII). -/
def jsCharToLower (c : Char) : Char :=
  if 65 ≤ c.toNat ∧ c.toNat ≤ 90 then Char.ofNat (c.toNat + 32) else c

/-- `s.toLowerCase()` on the ASCII range. -/
def jsToLower (s : String) : String :=
  ⟨s.data.map jsCharToLower⟩

/-- Does the character list `s` start with the character list `pat`? -/
def startsWithCh : List Char → List Char → Bool
  | _, [] => true
  | [], _ :: _ => false
  | a :: as, b :: bs => (a == b) && startsWithCh as bs

/-- Does the character list `s` contain `pat` as a contiguous run? -/
def containsSub : List Char → List Char → Bool
  | [], pat => startsWithCh [] pat
  | s@(_ :: rest), pat => startsWithCh s pat || containsSub rest pat

/-- `s.includes(sub)` of JS strings. -/
def jsIncludes (s sub : String) : Bool :=
  containsSub s.data sub.data

/-- A post as delivered by the API and held in the `posts` state
(fields read by `App.js`: `_id`, `title`, `content`, `category`, `likes`,
`views`, `createdAt`, `mediaUrl`, `mediaType`). -/
structure Post where
  _id : String
  title : String
  content : String
  category : String
  likes : Int
  views : Int
  createdAt : Nat
  mediaUrl : Option String
  mediaType : Option String
  deriving DecidableEq, Repr

/-- One toast as far as the mutation handlers are concerned: the `message`
and `type` passed to `addToast` (timing is modelled separately, see
`toastState`). -/
structure ToastMsg where
  message : String
  type : String
  deriving DecidableEq, Repr

/-- The `App` component state touched by the synchronization logic:
`posts`, `loading`, the modal booleans, `currentPost`, `postIdToDelete`,
the persisted `likedPosts` identifier list, and the queue of toast
messages pushed so far. -/
structure AppState where
  posts : List Post
  loading : Bool
  isPostModalOpen : Bool
  isReadModalOpen : Bool
  isConfirmModalOpen : Bool
  currentPost : Option Post
  postIdToDelete : Option String
  likedPosts : List String
  toasts : List ToastMsg
  deriving DecidableEq, Repr

/-- The dynamic JSON value in `response.data` of the fetch, as far as
`fetchPosts` inspects it: an array of posts, an object with a `success`
field (its truthiness) and a `data` field, or anything else. -/
inductive JsValue where
  | arr (xs : List Post)
  | obj (success : Bool) (data : JsValue)
  | other
  deriving DecidableEq, Repr

/-- Truthiness of `v.success` (`undefined`, hence falsy, on arrays and
other non-objects). -/
def JsValue.successTruthy : JsValue → Bool
  | .obj s _ => s
  | _ => false

/-- The `v.data` field (`undefined`, modelled `.other`, when absent). -/
def JsValue.dataField : JsValue → JsValue
  | .obj _ d => d
  | _ => .other

/-- `Array.isArray(v) ? v : []` specialised to post arrays. -/
def JsValue.asPostArray : JsValue → List Post
  | .arr xs => xs
  | _ => []

/-- Outcome of the `GET /api/posts` call. -/
inductive FetchResult where
  | ok (v : JsValue)
  | transportError
  deriving DecidableEq, Repr

/-- `fetchPosts` (App.js 140-154): on a response, unwrap the
`{success, data}` envelope when `success` is truthy, keep the data only
if it is an array (else `[]`); on a thrown error, push the fixed error
toast and set `posts` to `[]`. Both paths end with `loading = false`. -/
def fetchPosts (st : AppState) (r : FetchResult) : AppState :=
  match r with
  | .ok v =>
      let postsData := if v.successTruthy then v.dataField else v
      { st with loading := false, posts := postsData.asPostArray }
  | .transportError =>
      { st with
        loading := false
        posts := []
        toasts := st.toasts ++
          [⟨"Could not fetch posts. Please try again later.", "error"⟩] }

/-- Outcome of a delete / create / update call: success, or a failure
optionally carrying `error.response.data.message`. -/
inductive ApiOutcome where
  | ok
  | err (serverMessage : Option String)
  deriving DecidableEq, Repr

/-- `handleDeleteConfirm` (App.js 182-194): on success filter out the
post whose `_id` equals `postIdToDelete`, close the confirm modal, clear
`postIdToDelete`, push a success toast; on failure only push an error
toast built from the server message when present (the modal state and the
collection are not touched by the catch branch). -/
def handleDeleteConfirm (st : AppState) (r : ApiOutcome) : AppState :=
  match r with
  | .ok =>
      { st with
        posts := st.posts.filter (fun p => !(some p._id == st.postIdToDelete))
        isConfirmModalOpen := false
        postIdToDelete := none
        toasts := st.toasts ++ [⟨"Post deleted successfully!", "success"⟩] }
  | .err m =>
      { st with toasts := st.toasts ++
          [⟨"Error: " ++ m.getD "Could not delete post.", "error"⟩] }

/-- The synchronous optimistic half of `handleLike` (App.js 202-206),
reached only when the guard `likedPostsSet.has(postId)` failed: bump
`likes` of every post with the given `_id` and append the id to
`likedPosts`. -/
def likeOptimistic (st : AppState) (postId : String) : AppState :=
  { st with
    posts := st.posts.map (fun p =>
      if p._id == postId then { p with likes := p.likes + 1 } else p)
    likedPosts := st.likedPosts ++ [postId] }

/-- The rollback half of `handleLike` (App.js 210-219), run when the like
request rejects: decrement `likes` of every post with the given `_id`
(reading the posts state current at that moment), drop the id from
`likedPosts`, and push the fixed error toast. -/
def likeRollback (st : AppState) (postId : String) : AppState :=
  { st with
    posts := st.posts.map (fun p =>
      if p._id == postId then { p with likes := p.likes - 1 } else p)
    likedPosts := st.likedPosts.filter (fun id => !(id == postId))
    toasts := st.toasts ++ [⟨"Couldn't like post. Please try again.", "error"⟩] }

/-- `handleLike` (App.js 196-220) run to completion with no other event
interleaved: guard on the persisted identifier set, otherwise optimistic
update followed, when the request rejects, by the rollback. -/
def handleLike (st : AppState) (postId : String) (reqOk : Bool) : AppState :=
  if st.likedPosts.contains postId then
    { st with toasts := st.toasts ++ [⟨"You've already liked this post!", "info"⟩] }
  else
    let st1 := likeOptimistic st postId
    if reqOk then st1 else likeRollback st1 postId

/-- How many `POST /api/posts/{id}/like` requests one `handleLike` call
issues: none when the guard fires, exactly one otherwise (the request is
never re-issued by the handler). -/
def likeRequestCount (st : AppState) (postId : String) : Nat :=
  if st.likedPosts.contains postId then 0 else 1

/-- `filteredPosts` (App.js 243-251): keep a post iff its lower-cased
title or content contains the lower-cased search term, and the active
filter is `"all"` or equals the post's category case-insensitively. -/
def filteredPosts (posts : List Post) (searchTerm activeFilter : String) : List Post :=
  posts.filter (fun post =>
    (jsIncludes (jsToLower post.title) (jsToLower searchTerm) ||
      jsIncludes (jsToLower post.content) (jsToLower searchTerm)) &&
    (activeFilter == "all" ||
      jsToLower post.category == jsToLower activeFilter))

/-! ### Sequences of operations

`AppOp` collects the state transformers above into atomic events, so that
invariants can be stated over whole interaction histories.  A `like` op is
`handleLike` run to completion (its rollback, if any, sees the state its
own optimistic update produced); interleavings that break this atomicity
are treated separately via `likeOptimistic`/`likeRollback`. -/

/-- One atomic reaction of the app: a completed like, a completed fetch,
or a completed delete confirmation. -/
inductive AppOp where
  | like (postId : String) (reqOk : Bool)
  | fetch (r : FetchResult)
  | deleteConfirm (r : ApiOutcome)
  deriving DecidableEq, Repr

/-- Apply one atomic operation. -/
def applyOp (st : AppState) : AppOp → AppState
  | .like postId reqOk => handleLike st postId reqOk
  | .fetch r => fetchPosts st r
  | .deleteConfirm r => handleDeleteConfirm st r

/-- Run a whole history of atomic operations. -/
def runOps (st : AppState) (ops : List AppOp) : AppState :=
  ops.foldl applyOp st

/-- The list of posts a fetch outcome installs into the collection. -/
def fetchDelivers (r : FetchResult) : List Post :=
  match r with
  | .ok v => (if v.successTruthy then v.dataField else v).asPostArray
  | .transportError => []

/-- Does an operation only ever deliver posts with non-negative like
counters?  (Trivially true for everything but a fetch.) -/
def opFetchNonNeg : AppOp → Bool
  | .fetch r => (fetchDelivers r).all (fun p => decide (0 ≤ p.likes))
  | _ => true

/-- All posts in the state carry a non-negative like counter. -/
def LikesNonNeg (st : AppState) : Prop :=
  ∀ p ∈ st.posts, 0 ≤ p.likes

instance decidableLikesNonNeg (st : AppState) : Decidable (LikesNonNeg st) :=
  inferInstanceAs (Decidable (∀ p ∈ st.posts, 0 ≤ p.likes))

/-! ### Toast timing model

`useToasts` (App.js 9-21): `addToast` reads `id = Date.now()`, appends
`{id, message, type}` to the `toasts` state, and schedules, 4000ms later,
a removal of every entry whose `id` equals that `id`, on a timer of its
own that nothing resets. -/

/-- One `addToast` call: the `Date.now()` timestamp at which it ran
together with the message and type it was given. -/
structure PushEv where
  time : Nat
  message : String
  type : String
  deriving DecidableEq, Repr

/-- One entry of the `toasts` state: `addToast` stores `id = Date.now()`
alongside the message and type. -/
structure Toast where
  id : Nat
  message : String
  type : String
  deriving DecidableEq, Repr

/-- The entry `addToast` appends for one call. -/
def mkToast (e : PushEv) : Toast :=
  ⟨e.time, e.message, e.type⟩

/-- The `toasts` list visible at observation time `T`, for a history of
`addToast` calls (in call order).  By time `T` exactly the pushes with
`time ≤ T` have appended their entry and exactly those with
`time + 4000 ≤ T` have had their timer fire, each filtering out the
entries carrying its `id`.  Applying all fired filters after all appends
is faithful to the chronological interleaving: a push sharing an `id`
(that is, a `Date.now()` millisecond) with a fired timer necessarily ran
at that very millisecond, 4000ms before the timer, so no fired filter
ever precedes an append it should not see. -/
def toastState (pushes : List PushEv) (T : Nat) : List Toast :=
  ((pushes.filter (fun e => decide (e.time ≤ T))).map mkToast).filter
    (fun t => !((pushes.filter (fun e => decide (e.time + 4000 ≤ T))).map
      PushEv.time).contains t.id)

/-! ### Concrete data for instantiating the theorems -/

/-- A concrete post. -/
def samplePost : Post :=
  ⟨"p1", "Result 2024", "body text", "Result", 2, 5, 0, none, none⟩

/-- A second concrete post with a different identifier. -/
def samplePost2 : Post :=
  ⟨"p2", "Job Notice", "other text", "Job Notification", 0, 0, 0, none, none⟩

/-- A concrete app state holding the two sample posts, nothing liked. -/
def sampleState : AppState :=
  ⟨[samplePost, samplePost2], false, false, false, false, none, none, [], []⟩

/-- A concrete history of `addToast` calls: two identical pushes at the
same millisecond and an earlier distinct one. -/
def samplePushes : List PushEv :=
  [⟨50, "saved", "success"⟩, ⟨100, "hello", "info"⟩, ⟨100, "hello", "info"⟩]

/-! ### Helper lemmas -/

theorem startsWithCh_nil (s : List Char) : startsWithCh s [] = true := by
  cases s <;> rfl

theorem containsSub_nil (s : List Char) : containsSub s [] = true := by
  cases s <;> simp [containsSub, startsWithCh_nil]

theorem jsIncludes_empty (s : String) : jsIncludes s "" = true := by
  simpa [jsIncludes] using containsSub_nil s.data

theorem jsToLower_empty : jsToLower "" = "" := rfl

/-- Incrementing then decrementing `likes` of the posts matching an id
restores the list exactly. -/
theorem inc_dec_cancel (postId : String) (l : List Post) :
    (l.map (fun p => if p._id == postId then { p with likes := p.likes + 1 } else p)).map
      (fun p => if p._id == postId then { p with likes := p.likes - 1 } else p) = l := by
  induction l with
  | nil => rfl
  | cons p l ih =>
      simp only [List.map_cons, ih, List.cons.injEq, and_true]
      by_cases h : p._id == postId
      · cases p
        simp_all
      · simp [h]

/-- Appending a fresh element and then filtering it away is the identity. -/
theorem filter_append_fresh (l : List String) (x : String)
    (h : l.contains x = false) :
    (l ++ [x]).filter (fun id => !(id == x)) = l := by
  rw [List.filter_append]
  have h1 : l.filter (fun id => !(id == x)) = l := by
    apply List.filter_eq_self.mpr
    intro a ha
    simp only [Bool.not_eq_true', beq_eq_false_iff_ne]
    rintro rfl
    simp at h
    exact h ha
  simp [h1]

/-! ### Claim theorems -/

/-- C1: when the like request fails (and the guard did not fire, i.e. the
id was not yet in the persisted identifier set), the optimistic increment
and the compensating decrement cancel exactly — the whole posts
collection is restored —, the identifier is absent from the persisted
identifier set afterwards (which is itself restored), the fixed error
toast is pushed, and exactly one like request was issued (no retry). -/
theorem like_failure_compensates (st : AppState) (postId : String)
    (h : st.likedPosts.contains postId = false) :
    (handleLike st postId false).posts = st.posts ∧
    (handleLike st postId false).likedPosts = st.likedPosts ∧
    (handleLike st postId false).likedPosts.contains postId = false ∧
    (handleLike st postId false).toasts =
      st.toasts ++ [⟨"Couldn't like post. Please try again.", "error"⟩] ∧
    likeRequestCount st postId = 1 := by
  have hfilter := filter_append_fresh st.likedPosts postId h
  have hm : postId ∉ st.likedPosts := by simpa using h
  simp [handleLike, likeRequestCount, hm, likeOptimistic, likeRollback,
    inc_dec_cancel, hfilter]
  simpa [List.map_map] using inc_dec_cancel postId st.posts

/-- C1 witness at a concrete state. -/
theorem like_failure_compensates_witness :
    (handleLike sampleState "p1" false).posts = sampleState.posts ∧
    (handleLike sampleState "p1" false).likedPosts = sampleState.likedPosts ∧
    (handleLike sampleState "p1" false).likedPosts.contains "p1" = false ∧
    (handleLike sampleState "p1" false).toasts =
      sampleState.toasts ++ [⟨"Couldn't like post. Please try again.", "error"⟩] ∧
    likeRequestCount sampleState "p1" = 1 :=
  like_failure_compensates sampleState "p1" (by decide)

/-- C2: if the identifier is already in the persisted identifier set, the
like handler only appends the single info toast (so posts and the set are
untouched) and issues no network request; consequently, liking a fresh
identifier twice in a row issues exactly one like request, nets exactly
one `+1` on the posts with that identifier, leaves the set at the single
added entry, and the second attempt only appends the info toast. -/
theorem like_guard_and_double_like (st st' : AppState) (postId : String)
    (reqOk reqOk2 : Bool)
    (h : st.likedPosts.contains postId = true)
    (h' : st'.likedPosts.contains postId = false) :
    (handleLike st postId reqOk =
       { st with toasts := st.toasts ++ [⟨"You've already liked this post!", "info"⟩] } ∧
     likeRequestCount st postId = 0) ∧
    (likeRequestCount st' postId
       + likeRequestCount (handleLike st' postId true) postId = 1 ∧
     (handleLike (handleLike st' postId true) postId reqOk2).posts =
       st'.posts.map (fun p =>
         if p._id == postId then { p with likes := p.likes + 1 } else p) ∧
     (handleLike (handleLike st' postId true) postId reqOk2).likedPosts =
       st'.likedPosts ++ [postId] ∧
     (handleLike (handleLike st' postId true) postId reqOk2).toasts =
       (handleLike st' postId true).toasts ++
         [⟨"You've already liked this post!", "info"⟩]) := by
  have hm : postId ∈ st.likedPosts := by simpa using h
  have hm' : postId ∉ st'.likedPosts := by simpa using h'
  have hmem : postId ∈ (likeOptimistic st' postId).likedPosts := by
    simp [likeOptimistic]
  constructor
  · constructor
    · simp [handleLike, hm]
    · simp [likeRequestCount, hm]
  · have hst1 : handleLike st' postId true = likeOptimistic st' postId := by
      simp [handleLike, hm']
    rw [hst1]
    have hsecond : handleLike (likeOptimistic st' postId) postId reqOk2 =
        { likeOptimistic st' postId with
          toasts := (likeOptimistic st' postId).toasts ++
            [⟨"You've already liked this post!", "info"⟩] } := by
      simp [handleLike, hmem]
    rw [hsecond]
    refine ⟨?_, rfl, rfl, rfl⟩
    simp [likeRequestCount, hm', hmem]

/-- C2 witness at concrete states. -/
theorem like_guard_and_double_like_witness :
    ((handleLike { sampleState with likedPosts := ["p1"] } "p1" true =
       { { sampleState with likedPosts := ["p1"] } with
         toasts := { sampleState with likedPosts := ["p1"] }.toasts ++
           [⟨"You've already liked this post!", "info"⟩] } ∧
     likeRequestCount { sampleState with likedPosts := ["p1"] } "p1" = 0) ∧
    (likeRequestCount sampleState "p1"
       + likeRequestCount (handleLike sampleState "p1" true) "p1" = 1 ∧
     (handleLike (handleLike sampleState "p1" true) "p1" false).posts =
       sampleState.posts.map (fun p =>
         if p._id == "p1" then { p with likes := p.likes + 1 } else p) ∧
     (handleLike (handleLike sampleState "p1" true) "p1" false).likedPosts =
       sampleState.likedPosts ++ ["p1"] ∧
     (handleLike (handleLike sampleState "p1" true) "p1" false).toasts =
       (handleLike sampleState "p1" true).toasts ++
         [⟨"You've already liked this post!", "info"⟩])) :=
  like_guard_and_double_like { sampleState with likedPosts := ["p1"] }
    sampleState "p1" true false (by decide) (by decide)

/-- C9: with the empty search term and the `"all"` filter, the derived
view is the whole collection, in the stored order. -/
theorem filtered_empty_all_is_identity (posts : List Post) :
    filteredPosts posts "" "all" = posts := by
  unfold filteredPosts
  apply List.filter_eq_self.mpr
  intro p _
  simp [jsToLower_empty, jsIncludes_empty]

/-- C10: the derived view is always a subsequence of the stored
collection — every element of it is an element of the collection, it is
order-preserving, and no element occurs more often than stored. -/
theorem filtered_sublist (posts : List Post) (searchTerm activeFilter : String) :
    (filteredPosts posts searchTerm activeFilter).Sublist posts ∧
    (∀ p, p ∈ filteredPosts posts searchTerm activeFilter → p ∈ posts) ∧
    (∀ p, (filteredPosts posts searchTerm activeFilter).count p ≤ posts.count p) := by
  have hsub : (filteredPosts posts searchTerm activeFilter).Sublist posts :=
    List.filter_sublist posts
  exact ⟨hsub, fun p hp => hsub.mem hp, fun p => hsub.count_le p⟩

/-- C10 witness at a concrete collection. -/
theorem filtered_sublist_witness :
    (filteredPosts [samplePost, samplePost2] "result" "all").Sublist
      [samplePost, samplePost2] ∧
    (∀ p, p ∈ filteredPosts [samplePost, samplePost2] "result" "all" →
      p ∈ [samplePost, samplePost2]) ∧
    (∀ p, (filteredPosts [samplePost, samplePost2] "result" "all").count p ≤
      [samplePost, samplePost2].count p) :=
  filtered_sublist [samplePost, samplePost2] "result" "all"

/-- C8: a successful delete removes exactly the posts carrying the
targeted identifier — the remaining collection is a subsequence of the
old one (all other posts kept with all their fields, in order), contains
precisely the old posts with a different identifier, with unchanged
multiplicities — and it closes the confirmation workflow and pushes the
success toast. -/
theorem delete_success_frame (st : AppState) (x : String)
    (h : st.postIdToDelete = some x) :
    ((handleDeleteConfirm st .ok).posts).Sublist st.posts ∧
    (∀ p, p ∈ (handleDeleteConfirm st .ok).posts ↔ p ∈ st.posts ∧ p._id ≠ x) ∧
    (∀ p, ((handleDeleteConfirm st .ok).posts).count p =
      if p._id = x then 0 else st.posts.count p) ∧
    (handleDeleteConfirm st .ok).isConfirmModalOpen = false ∧
    (handleDeleteConfirm st .ok).postIdToDelete = none ∧
    (handleDeleteConfirm st .ok).likedPosts = st.likedPosts ∧
    (handleDeleteConfirm st .ok).toasts =
      st.toasts ++ [⟨"Post deleted successfully!", "success"⟩] := by
  refine ⟨?_, ?_, ?_, rfl, rfl, rfl, rfl⟩
  · exact List.filter_sublist st.posts
  · intro p
    simp [handleDeleteConfirm, h]
  · intro p
    by_cases hp : p._id = x
    · simp only [hp, if_pos rfl]
      apply List.count_eq_zero.mpr
      intro hmem
      have := (List.mem_filter.mp hmem).2
      simp [handleDeleteConfirm, h, hp] at hmem
    · rw [if_neg hp]
      apply List.count_filter
      simp [handleDeleteConfirm, h, hp]

/-- C8 witness at a concrete state. -/
theorem delete_success_frame_witness :
    ((handleDeleteConfirm
        { sampleState with
          isConfirmModalOpen := true
          postIdToDelete := some "p1" } .ok).posts).Sublist
      { sampleState with
        isConfirmModalOpen := true
        postIdToDelete := some "p1" }.posts ∧
    (∀ p, p ∈ (handleDeleteConfirm
        { sampleState with
          isConfirmModalOpen := true
          postIdToDelete := some "p1" } .ok).posts ↔
      p ∈ { sampleState with
          isConfirmModalOpen := true
          postIdToDelete := some "p1" }.posts ∧ p._id ≠ "p1") ∧
    (∀ p, ((handleDeleteConfirm
        { sampleState with
          isConfirmModalOpen := true
          postIdToDelete := some "p1" } .ok).posts).count p =
      if p._id = "p1" then 0
      else { sampleState with
          isConfirmModalOpen := true
          postIdToDelete := some "p1" }.posts.count p) ∧
    (handleDeleteConfirm
        { sampleState with
          isConfirmModalOpen := true
          postIdToDelete := some "p1" } .ok).isConfirmModalOpen = false ∧
    (handleDeleteConfirm
        { sampleState with
          isConfirmModalOpen := true
          postIdToDelete := some "p1" } .ok).postIdToDelete = none ∧
    (handleDeleteConfirm
        { sampleState with
          isConfirmModalOpen := true
          postIdToDelete := some "p1" } .ok).likedPosts =
      { sampleState with
          isConfirmModalOpen := true
          postIdToDelete := some "p1" }.likedPosts ∧
    (handleDeleteConfirm
        { sampleState with
          isConfirmModalOpen := true
          postIdToDelete := some "p1" } .ok).toasts =
      { sampleState with
          isConfirmModalOpen := true
          postIdToDelete := some "p1" }.toasts ++
        [⟨"Post deleted successfully!", "success"⟩] :=
  delete_success_frame
    { sampleState with isConfirmModalOpen := true, postIdToDelete := some "p1" }
    "p1" rfl

/-- C5 counterexample: the claim says a failed delete leaves the
confirmation workflow closed; in the code the catch branch of
`handleDeleteConfirm` does not touch `isConfirmModalOpen` (only the
success branch closes it), so at this concrete state — the modal open and
a target selected, as it is whenever the confirm button was just pressed
— it is still open after the failure. -/
theorem delete_failure_modal_open_cex :
    (handleDeleteConfirm
      { sampleState with
        isConfirmModalOpen := true
        postIdToDelete := some "p1" }
      (.err (some "server down"))).isConfirmModalOpen = true := rfl

/-- C5 (amended): when the delete request fails, the collection is kept
unchanged, an error toast carrying the server-provided message when
present (else the generic one) is pushed, and the confirmation workflow
state is left exactly as it was — in particular still open, with the
target still selected, so the user can retry from the same dialog without
re-initiating the delete. -/
theorem delete_failure_keeps_state (st : AppState) (m : Option String) :
    (handleDeleteConfirm st (.err m)).posts = st.posts ∧
    (handleDeleteConfirm st (.err m)).isConfirmModalOpen = st.isConfirmModalOpen ∧
    (handleDeleteConfirm st (.err m)).postIdToDelete = st.postIdToDelete ∧
    (handleDeleteConfirm st (.err m)).likedPosts = st.likedPosts ∧
    (handleDeleteConfirm st (.err m)).toasts =
      st.toasts ++ [⟨"Error: " ++ m.getD "Could not delete post.", "error"⟩] :=
  ⟨rfl, rfl, rfl, rfl, rfl⟩

/-- C7 counterexample: the claim says every response whose shape matches
neither a bare array nor an envelope pushes an error notification; in the
code the non-array case inside the `try` block silently sets the
collection to `[]` without any toast (the toast only happens in the
`catch`).  Here the response is a 200 whose body is neither shape and the
toast queue stays empty. -/
theorem fetch_shape_mismatch_silent_cex :
    (fetchPosts sampleState (.ok .other)).posts = [] ∧
    (fetchPosts sampleState (.ok .other)).toasts = [] :=
  ⟨rfl, rfl⟩

/-- C7 (amended): the fetch accepts a bare array or a `{success, data}`
envelope with truthy `success` and array `data` (installing the posts,
with no notification); on every other response shape the collection is
set to the empty list with NO notification; only a transport failure
sets the collection empty AND pushes the error notification. -/
theorem fetch_tolerates_shapes (st : AppState) (xs : List Post) (v : JsValue)
    (hv : ∀ ys, (if v.successTruthy then v.dataField else v) ≠ JsValue.arr ys) :
    (fetchPosts st (.ok (.arr xs))).posts = xs ∧
    (fetchPosts st (.ok (.arr xs))).toasts = st.toasts ∧
    (fetchPosts st (.ok (.obj true (.arr xs)))).posts = xs ∧
    (fetchPosts st (.ok (.obj true (.arr xs)))).toasts = st.toasts ∧
    (fetchPosts st (.ok v)).posts = [] ∧
    (fetchPosts st (.ok v)).toasts = st.toasts ∧
    (fetchPosts st .transportError).posts = [] ∧
    (fetchPosts st .transportError).toasts =
      st.toasts ++ [⟨"Could not fetch posts. Please try again later.", "error"⟩] := by
  refine ⟨rfl, rfl, rfl, rfl, ?_, rfl, rfl, rfl⟩
  cases hw : (if v.successTruthy then v.dataField else v) with
  | arr ys => exact absurd hw (hv ys)
  | obj s d => simp [fetchPosts, hw, JsValue.asPostArray]
  | other => simp [fetchPosts, hw, JsValue.asPostArray]

/-- C7 witness: a concrete mismatching response (a 200 whose body is
neither an array nor a successful envelope). -/
theorem fetch_tolerates_shapes_witness :
    (fetchPosts sampleState (.ok (.arr [samplePost]))).posts = [samplePost] ∧
    (fetchPosts sampleState (.ok (.arr [samplePost]))).toasts = sampleState.toasts ∧
    (fetchPosts sampleState (.ok (.obj true (.arr [samplePost])))).posts = [samplePost] ∧
    (fetchPosts sampleState (.ok (.obj true (.arr [samplePost])))).toasts =
      sampleState.toasts ∧
    (fetchPosts sampleState (.ok (.obj false (.arr [samplePost])))).posts = [] ∧
    (fetchPosts sampleState (.ok (.obj false (.arr [samplePost])))).toasts =
      sampleState.toasts ∧
    (fetchPosts sampleState .transportError).posts = [] ∧
    (fetchPosts sampleState .transportError).toasts =
      sampleState.toasts ++
        [⟨"Could not fetch posts. Please try again later.", "error"⟩] :=
  fetch_tolerates_shapes sampleState [samplePost] (.obj false (.arr [samplePost]))
    (fun ys h => by simp [JsValue.successTruthy] at h)

/-- C3 counterexample: the claim says search terms differing only in
leading/trailing whitespace give the same view; the code never trims
(`searchTerm.toLowerCase()` only), so a leading space changes the
result. -/
theorem filtered_whitespace_sensitive_cex :
    filteredPosts [samplePost] "result" "all" = [samplePost] ∧
    filteredPosts [samplePost] " result" "all" = [] := by decide

/-- C3 (amended): the derived view is a pure function of the collection,
the LOWER-CASED (but NOT trimmed) search term, and the filter: a post is
in the result iff its lower-cased title or lower-cased content (markup
not stripped) contains the lower-cased search term, and the filter is
`"all"` or the post's category equals it case-insensitively; search terms
with the same lower-casing give the same result, but terms differing in
leading/trailing whitespace generally do not. -/
theorem filtered_characterization (posts : List Post)
    (searchTerm activeFilter : String) :
    (∀ p, p ∈ filteredPosts posts searchTerm activeFilter ↔
      p ∈ posts ∧
      (jsIncludes (jsToLower p.title) (jsToLower searchTerm) = true ∨
        jsIncludes (jsToLower p.content) (jsToLower searchTerm) = true) ∧
      (activeFilter = "all" ∨ jsToLower p.category = jsToLower activeFilter)) ∧
    (∀ s', jsToLower s' = jsToLower searchTerm →
      filteredPosts posts s' activeFilter =
        filteredPosts posts searchTerm activeFilter) := by
  constructor
  · intro p
    simp [filteredPosts, List.mem_filter]
  · intro s' hs'
    simp only [filteredPosts, hs']

/-- C3 witness: the characterization at a concrete collection, and the
same view for two search terms with equal lower-casings. -/
theorem filtered_characterization_witness :
    (samplePost ∈ filteredPosts [samplePost, samplePost2] "RESULT" "all" ↔
      samplePost ∈ [samplePost, samplePost2] ∧
      (jsIncludes (jsToLower samplePost.title) (jsToLower "RESULT") = true ∨
        jsIncludes (jsToLower samplePost.content) (jsToLower "RESULT") = true) ∧
      ("all" = "all" ∨ jsToLower samplePost.category = jsToLower "all")) ∧
    filteredPosts [samplePost, samplePost2] "Result" "all" =
      filteredPosts [samplePost, samplePost2] "RESULT" "all" :=
  ⟨(filtered_characterization [samplePost, samplePost2] "RESULT" "all").1 samplePost,
   (filtered_characterization [samplePost, samplePost2] "RESULT" "all").2
     "Result" (by decide)⟩

/-- C4 counterexample: `likeCount` is NOT non-negative at every
observable point of every operation sequence.  Reachable trace: nothing
is liked, so liking `"p2"` (`likes = 0`) passes the guard and the
optimistic increment runs (`likes = 1`); the pending fetch then completes
with the server's stale data (`likes = 0`, the like not yet recorded, all
counters non-negative); the like request then rejects and the rollback —
which reads the posts state current at that moment — decrements the fresh
copy to `-1`. -/
theorem likes_negative_after_interleaved_fetch_cex :
    ((likeRollback
        (fetchPosts (likeOptimistic sampleState "p2")
          (.ok (.arr [samplePost, samplePost2])))
        "p2").posts.map Post.likes) = [2, -1] ∧
    ¬ (0 : Int) ≤ -1 ∧
    sampleState.likedPosts.contains "p2" = false := by decide

/-- Bumping like counters preserves their non-negativity. -/
theorem likesNonNeg_likeOptimistic (st : AppState) (postId : String)
    (h : LikesNonNeg st) : LikesNonNeg (likeOptimistic st postId) := by
  intro p hp
  simp only [likeOptimistic, List.mem_map] at hp
  obtain ⟨q, hq, rfl⟩ := hp
  by_cases hid : q._id == postId
  · simp only [hid, if_true]
    have := h q hq
    omega
  · simp only [hid]
    simp only [Bool.false_eq_true, if_false]
    exact h q hq

/-- The failure rollback applied right after its own optimistic update
restores the posts collection exactly. -/
theorem likeRollback_optimistic_posts (st : AppState) (postId : String) :
    (likeRollback (likeOptimistic st postId) postId).posts = st.posts := by
  simp only [likeRollback, likeOptimistic]
  exact inc_dec_cancel postId st.posts

/-- Each atomic operation preserves non-negativity of the like counters,
provided a fetch only delivers non-negative ones. -/
theorem likesNonNeg_applyOp (st : AppState) (op : AppOp)
    (h : LikesNonNeg st) (hop : opFetchNonNeg op = true) :
    LikesNonNeg (applyOp st op) := by
  cases op with
  | like postId reqOk =>
      simp only [applyOp, handleLike]
      by_cases hc : st.likedPosts.contains postId = true
      · simp only [hc, if_true]
        exact h
      · rw [if_neg hc]
        cases reqOk with
        | true =>
            simp only [if_true]
            exact likesNonNeg_likeOptimistic st postId h
        | false =>
            simp only [Bool.false_eq_true, if_false]
            intro p hp
            rw [likeRollback_optimistic_posts] at hp
            exact h p hp
  | fetch r =>
      cases r with
      | ok v =>
          intro p hp
          simp only [opFetchNonNeg, fetchDelivers, List.all_eq_true,
            decide_eq_true_eq] at hop
          exact hop p hp
      | transportError =>
          intro p hp
          simp [applyOp, fetchPosts] at hp
  | deleteConfirm r =>
      cases r with
      | ok =>
          intro p hp
          exact h p (List.mem_filter.mp hp).1
      | err m =>
          exact h

/-- Non-negativity of like counters is preserved along any history of
atomic operations whose fetches deliver non-negative counters. -/
theorem likesNonNeg_runOps (ops : List AppOp) (st : AppState)
    (h : LikesNonNeg st) (hops : ∀ op ∈ ops, opFetchNonNeg op = true) :
    LikesNonNeg (runOps st ops) := by
  induction ops generalizing st with
  | nil => exact h
  | cons op ops ih =>
      exact ih (applyOp st op)
        (likesNonNeg_applyOp st op h (hops op (by simp)))
        (fun o ho => hops o (by simp [ho]))

/-- C4 (amended): starting from a collection of non-negative like
counters, after every prefix of a history of atomic operations — likes
whose rollback, if any, runs before the next refresh, fetches delivering
non-negative counters, deletes — every post's `likeCount` is ≥ 0, and it
stays ≥ 0 even at the interior point right after a like's optimistic
increment.  (The counterexample above shows the invariant does fail when
a fetch refresh is interleaved between a like's optimistic increment and
its rollback.) -/
theorem likes_nonneg_over_histories (st : AppState) (ops : List AppOp)
    (h0 : LikesNonNeg st) (hops : ∀ op ∈ ops, opFetchNonNeg op = true) :
    (∀ n, LikesNonNeg (runOps st (ops.take n))) ∧
    (∀ n postId, LikesNonNeg (likeOptimistic (runOps st (ops.take n)) postId)) := by
  have key : ∀ n, LikesNonNeg (runOps st (ops.take n)) := fun n =>
    likesNonNeg_runOps (ops.take n) st h0
      (fun op ho => hops op (List.take_subset n ops ho))
  exact ⟨key, fun n postId => likesNonNeg_likeOptimistic _ postId (key n)⟩

/-- C4 witness: a concrete history with a failing like, a refresh, a
successful like and a delete. -/
theorem likes_nonneg_over_histories_witness :
    LikesNonNeg (runOps sampleState
      ([AppOp.like "p1" false,
        AppOp.fetch (.ok (.arr [samplePost, samplePost2])),
        AppOp.like "p2" true,
        AppOp.deleteConfirm .ok].take 3)) ∧
    LikesNonNeg (likeOptimistic (runOps sampleState
      ([AppOp.like "p1" false,
        AppOp.fetch (.ok (.arr [samplePost, samplePost2])),
        AppOp.like "p2" true,
        AppOp.deleteConfirm .ok].take 3)) "p1") :=
  ⟨(likes_nonneg_over_histories sampleState _ (by decide) (by decide)).1 3,
   (likes_nonneg_over_histories sampleState _ (by decide) (by decide)).2 3 "p1"⟩

/-- C6: the toast list at any observation time consists of exactly the
pushes whose 4000ms lifetime covers it, in push order and with
multiplicity — so repeated pushes, even of identical messages or at the
same millisecond, each contribute their own independently-expiring entry,
no push resets another's timer, and any pushed toast is still visible
3999ms after its push and gone 4001ms after it. -/
theorem toast_lifetimes (pushes : List PushEv) (T : Nat) (e : PushEv)
    (he : e ∈ pushes) :
    toastState pushes T =
      (pushes.filter (fun x => decide (x.time ≤ T ∧ T < x.time + 4000))).map mkToast ∧
    mkToast e ∈ toastState pushes (e.time + 3999) ∧
    mkToast e ∉ toastState pushes (e.time + 4001) := by
  have main : ∀ T' : Nat, toastState pushes T' =
      (pushes.filter (fun x => decide (x.time ≤ T' ∧ T' < x.time + 4000))).map mkToast := by
    intro T'
    unfold toastState
    rw [List.filter_map, List.filter_filter]
    congr 1
    apply List.filter_congr
    intro x hx
    by_cases h1 : x.time ≤ T'
    · by_cases h2 : T' < x.time + 4000
      · have hnf : ¬ ∃ b, (b ∈ pushes ∧ b.time + 4000 ≤ T') ∧ b.time = x.time := by
          rintro ⟨b, ⟨hb, hble⟩, hbt⟩
          omega
        simp [mkToast, List.mem_map, List.mem_filter, h1, h2, hnf]
      · have hf : ∃ b, (b ∈ pushes ∧ b.time + 4000 ≤ T') ∧ b.time = x.time :=
          ⟨x, ⟨hx, by omega⟩, rfl⟩
        simp [mkToast, List.mem_map, List.mem_filter, h1, h2, hf]
    · simp [h1]
  refine ⟨main T, ?_, ?_⟩
  · rw [main]
    exact List.mem_map_of_mem mkToast (List.mem_filter.mpr ⟨he, by simp⟩)
  · rw [main]
    intro hmem
    obtain ⟨x, hxf, hxe⟩ := List.mem_map.mp hmem
    have hxt : x.time = e.time := congrArg Toast.id hxe
    have := (List.mem_filter.mp hxf).2
    simp at this
    omega

/-- C6 witness: the concrete push history, observed at 500ms, and the
lifetime bounds of the push at 100ms. -/
theorem toast_lifetimes_witness :
    toastState samplePushes 500 =
      (samplePushes.filter
        (fun x => decide (x.time ≤ 500 ∧ 500 < x.time + 4000))).map mkToast ∧
    mkToast ⟨100, "hello", "info"⟩ ∈ toastState samplePushes (100 + 3999) ∧
    mkToast ⟨100, "hello", "info"⟩ ∉ toastState samplePushes (100 + 4001) :=
  toast_lifetimes samplePushes 500 ⟨100, "hello", "info"⟩ (by decide)
